import Mathlib

/-!
Verification development for the kepka token-management backend.

The definitions below are a shallow embedding of the code paths that handle
gasless sponsorships, transaction status updates, token creation, multi-sig
wallet creation and the payment webhook reconciler.  Each definition mirrors
one function of the repository:

- generate_transaction_nonce mirrors the SQL function of the same name in
  scripts/002_gasless_transaction_system.sql (COALESCE(MAX(nonce), 0) + 1).
- sponsor mirrors the POST /api/gasless/sponsor Express handler (the gasless
  router): validation, transaction lookup, the policy loop over rate_limit
  and amount_limit policies, nonce generation and the row insert.
- getGaslessTransactions mirrors GET /api/gasless/transactions.
- updateTransactionStatus mirrors PATCH /api/transactions/:id/status in
  routes/transactions.js.
- createToken mirrors POST /api/tokens in routes/transactions.js.
- createMultiSigWallet mirrors POST /api/security/multi-sig-wallets in
  routes/security.js.
- processWebhookEvent and webhookPOST mirror the Stripe webhook handler in
  app/api/payments/webhooks/route.ts (identical logic in routes/payments.js).
- validateSignature mirrors the webhook signature middleware.

Database reads through the supabase client return a pair of data and error.
The handlers in this repository destructure that pair; where a handler
ignores the error member, a failed read behaves exactly like an empty
result.  The ReadFaults record makes each possible read failure explicit so
that the error-handling claims can be stated faithfully.

Timestamps are modelled as natural numbers counting milliseconds, matching
the Date.now() arithmetic of the handlers.  Row ids are natural numbers.
-/

namespace Kepka

/-- Row of the transactions table; only the columns the embedded handlers
inspect are carried. -/
structure Txn where
  id : Nat
  user_id : Nat
  status : String
deriving DecidableEq, Repr

/-- Fields of the policy_config JSON blob that the handlers read. -/
structure PolicyConfig where
  hours : Nat
  max_transactions : Nat
  max_amount : Nat
deriving DecidableEq, Repr

/-- Row of the security_policies table. -/
structure SecurityPolicy where
  user_id : Nat
  policy_type : String
  policy_config : PolicyConfig
  is_active : Bool
deriving DecidableEq, Repr

/-- Row of the gasless_transactions table. -/
structure GaslessRow where
  user_id : Nat
  transaction_id : Nat
  sponsor_address : String
  gas_fee_ada : Nat
  status : String
  nonce : Nat
  expires_at : Nat
  created_at : Nat
deriving DecidableEq, Repr

/-- Row of the tokens table; only the columns written by POST /api/tokens. -/
structure TokenRow where
  token_name : String
  symbol : String
  policy_id : String
  asset_name : String
  decimals : Nat
  total_supply : Nat
  description : Option String
  image_url : Option String
  creator_id : Nat
deriving DecidableEq, Repr

/-- Row of the multi_sig_wallets table. -/
structure MultiSigWallet where
  id : Nat
  user_id : Nat
  wallet_name : String
  required_signatures : Nat
  total_signers : Nat
  wallet_address : String
  script_hash : String
  is_active : Bool
deriving DecidableEq, Repr

/-- Row of the wallet_signers table. -/
structure WalletSigner where
  multi_sig_wallet_id : Nat
  signer_address : String
  signer_name : Option String
  public_key : String
  is_verified : Bool
deriving DecidableEq, Repr

/-- Row of the payment_transactions billing table; the webhook handler only
touches the stripe_payment_intent_id key and the status column (updated_at,
which it also sets, is a timestamp and outside the idempotence claim). -/
structure PaymentTransaction where
  stripe_payment_intent_id : String
  status : String
deriving DecidableEq, Repr

/-- Row of the user_subscriptions billing table, restricted to the columns
the webhook handler reads and writes (minus the updated_at timestamp). -/
structure UserSubscription where
  user_id : Nat
  stripe_customer_id : String
  stripe_subscription_id : String
  status : String
  current_period_start : Nat
  current_period_end : Nat
  cancel_at_period_end : Bool
deriving DecidableEq, Repr

/-- State of the persistence gateway: one list per table plus the id counter
used when a row id is needed (wallet creation).  The repository holds no
other durable state. -/
structure Db where
  transactions : List Txn
  security_policies : List SecurityPolicy
  gasless_transactions : List GaslessRow
  tokens : List TokenRow
  multi_sig_wallets : List MultiSigWallet
  wallet_signers : List WalletSigner
  payment_transactions : List PaymentTransaction
  user_subscriptions : List UserSubscription
  next_id : Nat
deriving DecidableEq, Repr

/-- Which supabase reads or writes of the sponsor handler report an error.
The handler destructures every result into data and error; the flags record
the error member of each call site. -/
structure ReadFaults where
  policiesReadError : Bool
  recentReadError : Bool
  nonceError : Bool
  insertError : Bool
deriving DecidableEq, Repr

/-- All reads and writes succeed. -/
def noFaults : ReadFaults :=
  { policiesReadError := false, recentReadError := false,
    nonceError := false, insertError := false }

/-- SQL function generate_transaction_nonce(user_uuid): selects
COALESCE(MAX(nonce), 0) + 1 over the gasless_transactions rows of the user. -/
def generate_transaction_nonce (db : Db) (user_uuid : Nat) : Nat :=
  (((db.gasless_transactions.filter
      (fun g => decide (g.user_id = user_uuid))).map
      (fun g => g.nonce)).foldl max 0) + 1

/-- Outcome of the sponsor handler, one constructor per response of the
route: 400 validation, 404 not found, 429 rate limit, 400 amount limit,
500 nonce failure, 400 insert failure, and the 200 success payload. -/
inductive SponsorResult where
  | validationFailed
  | transactionNotFound
  | rateLimitExceeded (max_transactions hours : Nat)
  | amountLimitExceeded (max_amount : Nat)
  | nonceGenerationFailed
  | sponsorInsertFailed
  | sponsored (row : GaslessRow)
deriving DecidableEq, Repr

/-- Whether a sponsor outcome is the 429 rate-limit denial. -/
def isRateLimitDenial : SponsorResult → Bool
  | .rateLimitExceeded _ _ => true
  | _ => false

/-- Whether a sponsor outcome is the 200 success payload. -/
def isSponsored : SponsorResult → Bool
  | .sponsored _ => true
  | _ => false

/-- Count of gasless_transactions rows of the user created at or after
now minus hours (the gte created_at hoursAgo query of the handler). -/
def recentGaslessCount (db : Db) (userId now hours : Nat) : Nat :=
  (db.gasless_transactions.filter
    (fun g => decide
      (g.user_id = userId ∧ now - hours * 3600000 ≤ g.created_at))).length

/-- The supabase query filtering security_policies by user id and
is_active = true. -/
def activePolicies (db : Db) (userId : Nat) : List SecurityPolicy :=
  db.security_policies.filter
    (fun p => decide (p.user_id = userId ∧ p.is_active = true))

/-- The transaction lookup of the handlers: eq id, eq user_id, single().
single() yields a row exactly when the filter matches one row. -/
def findTransaction (db : Db) (txId userId : Nat) : Option Txn :=
  match db.transactions.filter
      (fun t => decide (t.id = txId ∧ t.user_id = userId)) with
  | [t] => some t
  | _ => none

/-- The policy loop of the sponsor handler: policies are visited in list
order; a rate_limit policy denies when the recent count reaches
max_transactions, an amount_limit policy denies when the fee exceeds
max_amount, any other policy type is skipped.  When the recent-history read
errors the handler reads recentTxs?.length || 0, so the count becomes 0. -/
def checkPolicies (db : Db) (userId fee now : Nat) (faults : ReadFaults) :
    List SecurityPolicy → Option SponsorResult
  | [] => none
  | policy :: rest =>
    if policy.policy_type = "rate_limit" then
      let config := policy.policy_config
      let recentCount :=
        if faults.recentReadError then 0
        else recentGaslessCount db userId now config.hours
      if config.max_transactions ≤ recentCount then
        some (.rateLimitExceeded config.max_transactions config.hours)
      else checkPolicies db userId fee now faults rest
    else if policy.policy_type = "amount_limit" then
      if policy.policy_config.max_amount < fee then
        some (.amountLimitExceeded policy.policy_config.max_amount)
      else checkPolicies db userId fee now faults rest
    else checkPolicies db userId fee now faults rest

/-- POST /api/gasless/sponsor: validates the fee, looks the transaction up,
fetches the active policies (a failed read is destructured without its error
member, so it behaves as an empty list), runs the policy loop, generates the
nonce through the SQL function (nonce = nonceResult || 1 in the handler) and
inserts the sponsorship row with status sponsored and a 30-minute expiry. -/
def sponsor (db : Db) (userId txId fee now : Nat) (faults : ReadFaults) :
    SponsorResult × Db :=
  if fee < 1 then (.validationFailed, db)
  else
    match findTransaction db txId userId with
    | none => (.transactionNotFound, db)
    | some _ =>
      let policies :=
        if faults.policiesReadError then [] else activePolicies db userId
      match checkPolicies db userId fee now faults policies with
      | some denial => (denial, db)
      | none =>
        if faults.nonceError then (.nonceGenerationFailed, db)
        else
          let nonceResult := generate_transaction_nonce db userId
          let nonce := if nonceResult = 0 then 1 else nonceResult
          if faults.insertError then (.sponsorInsertFailed, db)
          else
            let row : GaslessRow :=
              { user_id := userId, transaction_id := txId,
                sponsor_address := "addr1_kepka_sponsor_treasury_address",
                gas_fee_ada := fee, status := "sponsored", nonce := nonce,
                expires_at := now + 30 * 60 * 1000, created_at := now }
            (.sponsored row,
              { db with gasless_transactions :=
                  db.gasless_transactions ++ [row] })

/-- GET /api/gasless/transactions: returns the gasless rows of the user with
their stored columns; the handler applies no transformation to status. -/
def getGaslessTransactions (db : Db) (userId : Nat) : List GaslessRow :=
  db.gasless_transactions.filter (fun g => decide (g.user_id = userId))

/-! Helper lemmas about foldl max, shared by the nonce theorems. -/

theorem foldl_max_init_le (l : List Nat) (a : Nat) : a ≤ l.foldl max a := by
  induction l generalizing a with
  | nil => exact le_refl a
  | cons x xs ih => exact le_trans (le_max_left a x) (ih (max a x))

theorem le_foldl_max (l : List Nat) (a : Nat) :
    ∀ x ∈ l, x ≤ l.foldl max a := by
  induction l generalizing a with
  | nil => intro x hx; cases hx
  | cons y ys ih =>
    intro x hx
    rcases List.mem_cons.mp hx with h | h
    · subst h
      exact le_trans (le_max_right a x) (foldl_max_init_le ys (max a x))
    · exact ih (max a y) x h

theorem generate_transaction_nonce_ne_zero (db : Db) (u : Nat) :
    generate_transaction_nonce db u ≠ 0 := by
  unfold generate_transaction_nonce
  exact Nat.succ_ne_zero _

theorem nonce_gt_all_user_nonces (db : Db) (u : Nat) :
    ∀ g ∈ db.gasless_transactions, g.user_id = u →
      g.nonce < generate_transaction_nonce db u := by
  intro g hg hu
  have hmem : g ∈ db.gasless_transactions.filter
      (fun g2 => decide (g2.user_id = u)) :=
    List.mem_filter.mpr ⟨hg, by simp [hu]⟩
  have hmap : g.nonce ∈ (db.gasless_transactions.filter
      (fun g2 => decide (g2.user_id = u))).map (fun g2 => g2.nonce) :=
    List.mem_map_of_mem _ hmem
  have hle := le_foldl_max _ 0 _ hmap
  exact Nat.lt_succ_of_le hle

theorem generate_transaction_nonce_eq_one_of_no_rows (db : Db) (u : Nat)
    (h : ∀ g ∈ db.gasless_transactions, g.user_id ≠ u) :
    generate_transaction_nonce db u = 1 := by
  unfold generate_transaction_nonce
  have hfil : db.gasless_transactions.filter
      (fun g2 => decide (g2.user_id = u)) = [] := by
    apply List.filter_eq_nil_iff.mpr
    intro g hg
    simp [h g hg]
  rw [hfil]
  rfl

/-- Outcome of PATCH /api/transactions/:id/status. -/
inductive UpdateStatusResult where
  | validationFailed
  | transactionNotFound
  | updated (txn : Txn)
deriving DecidableEq, Repr

/-- PATCH /api/transactions/:id/status: the status is validated against the
enum pending, confirmed, failed, then the update runs with eq id, eq user_id
and single(); the handler imposes no condition on the current status of the
row before writing the requested one. -/
def updateTransactionStatus (db : Db) (userId txId : Nat) (status : String) :
    UpdateStatusResult × Db :=
  if status = "pending" ∨ status = "confirmed" ∨ status = "failed" then
    match findTransaction db txId userId with
    | none => (.transactionNotFound, db)
    | some t =>
      (.updated { t with status := status },
        { db with transactions :=
            db.transactions.map fun u =>
              if u.id = txId ∧ u.user_id = userId
                then { u with status := status } else u })
  else (.validationFailed, db)

/-- Request body of POST /api/tokens; optional members are absent when the
caller omits the field. -/
structure TokenRequest where
  token_name : String
  symbol : String
  policy_id : String
  asset_name : String
  decimals : Option Nat
  total_supply : Option Nat
  description : Option String
  image_url : Option String
deriving DecidableEq, Repr

/-- Outcome of POST /api/tokens. -/
inductive CreateTokenResult where
  | validationFailed
  | insertFailed
  | created (token : TokenRow)
deriving DecidableEq, Repr

/-- Validator chain of POST /api/tokens: the four name fields are required
non-empty, decimals when present lies in 0..18, total_supply when present is
a non-negative integer (automatic for Nat), description when present has at
most 1000 characters.  The isURL check on image_url is an external validator
and is not modelled; the theorems only assume a request that passed the full
chain, which is a subset of the requests accepted here. -/
def tokenRequestValid (r : TokenRequest) : Bool :=
  (!r.token_name.isEmpty) && (!r.symbol.isEmpty) && (!r.policy_id.isEmpty) &&
  (!r.asset_name.isEmpty) &&
  (match r.decimals with
   | none => true
   | some d => decide (d ≤ 18)) &&
  (match r.description with
   | none => true
   | some s => decide (s.length ≤ 1000))

/-- POST /api/tokens: after validation the handler destructures the body
with the defaults decimals = 6 and total_supply = 0 and inserts the row. -/
def createToken (db : Db) (userId : Nat) (req : TokenRequest)
    (insertFails : Bool) : CreateTokenResult × Db :=
  if tokenRequestValid req = false then (.validationFailed, db)
  else if insertFails then (.insertFailed, db)
  else
    let token : TokenRow :=
      { token_name := req.token_name, symbol := req.symbol,
        policy_id := req.policy_id, asset_name := req.asset_name,
        decimals := req.decimals.getD 6,
        total_supply := req.total_supply.getD 0,
        description := req.description, image_url := req.image_url,
        creator_id := userId }
    (.created token, { db with tokens := db.tokens ++ [token] })

/-- Signer entry of the POST /api/security/multi-sig-wallets body. -/
structure SignerRequest where
  signer_address : String
  signer_name : Option String
  public_key : String
deriving DecidableEq, Repr

/-- Outcome of POST /api/security/multi-sig-wallets. -/
inductive CreateWalletResult where
  | validationFailed
  | invalidConfiguration
  | walletInsertFailed
  | signersInsertFailed
  | created (wallet : MultiSigWallet) (signers : List WalletSigner)
deriving DecidableEq, Repr

/-- Validator chain of POST /api/security/multi-sig-wallets: wallet_name,
wallet_address and script_hash non-empty, required_signatures and
total_signers at least 1, at least one signer, each signer with a non-empty
signer_address and public_key. -/
def walletRequestValid (wallet_name : String)
    (required_signatures total_signers : Nat)
    (wallet_address script_hash : String)
    (signers : List SignerRequest) : Bool :=
  (!wallet_name.isEmpty) && decide (1 ≤ required_signatures) &&
  decide (1 ≤ total_signers) && (!wallet_address.isEmpty) &&
  (!script_hash.isEmpty) && (!signers.isEmpty) &&
  signers.all (fun s => (!s.signer_address.isEmpty) && (!s.public_key.isEmpty))

/-- POST /api/security/multi-sig-wallets: validation, the two configuration
checks (required_signatures must not exceed total_signers, the number of
signers must equal total_signers), the wallet insert, then the signers
insert; when the signers insert errors the handler deletes the just-created
wallet row by id before returning the error. -/
def createMultiSigWallet (db : Db) (userId : Nat) (wallet_name : String)
    (required_signatures total_signers : Nat)
    (wallet_address script_hash : String) (signers : List SignerRequest)
    (walletInsertFails signersInsertFails : Bool) : CreateWalletResult × Db :=
  if walletRequestValid wallet_name required_signatures total_signers
      wallet_address script_hash signers = false then
    (.validationFailed, db)
  else if total_signers < required_signatures then (.invalidConfiguration, db)
  else if signers.length ≠ total_signers then (.invalidConfiguration, db)
  else if walletInsertFails then (.walletInsertFailed, db)
  else
    let wallet : MultiSigWallet :=
      { id := db.next_id, user_id := userId, wallet_name := wallet_name,
        required_signatures := required_signatures,
        total_signers := total_signers, wallet_address := wallet_address,
        script_hash := script_hash, is_active := true }
    let dbWithWallet :=
      { db with
        multi_sig_wallets := db.multi_sig_wallets ++ [wallet],
        next_id := db.next_id + 1 }
    let signersData : List WalletSigner := signers.map
      (fun s => { multi_sig_wallet_id := wallet.id,
                  signer_address := s.signer_address,
                  signer_name := s.signer_name,
                  public_key := s.public_key, is_verified := false })
    if signersInsertFails then
      (.signersInsertFailed,
        { dbWithWallet with multi_sig_wallets :=
            dbWithWallet.multi_sig_wallets.filter (fun w => decide (w.id ≠ wallet.id)) })
    else
      (.created wallet signersData,
        { dbWithWallet with wallet_signers :=
            dbWithWallet.wallet_signers ++ signersData })

/-- Stripe events the webhook handler matches on; subscription created and
updated share one handler body, so one constructor covers both. -/
inductive StripeEvent where
  | payment_intent_succeeded (intentId : String)
  | payment_intent_payment_failed (intentId : String)
  | customer_subscription_updated (subscriptionId customerId : String)
      (status : String) (periodStart periodEnd : Nat)
      (cancelAtPeriodEnd : Bool)
  | customer_subscription_deleted (subscriptionId : String)
  | otherEvent
deriving DecidableEq, Repr

/-- Body of the webhook switch after a verified event: payment intents
update the status of the payment_transactions rows keyed by intent id; a
subscription update first selects the row by customer id with single() and,
only when exactly one row exists, updates it; a deletion sets status
canceled on the rows keyed by subscription id; other events are logged and
ignored.  Every branch is an update, never an insert. -/
def processWebhookEvent (db : Db) (e : StripeEvent) : Db :=
  match e with
  | .payment_intent_succeeded pid =>
    { db with payment_transactions :=
        db.payment_transactions.map fun t =>
          if t.stripe_payment_intent_id = pid
            then { t with status := "succeeded" } else t }
  | .payment_intent_payment_failed pid =>
    { db with payment_transactions :=
        db.payment_transactions.map fun t =>
          if t.stripe_payment_intent_id = pid
            then { t with status := "failed" } else t }
  | .customer_subscription_updated sid cid st ps pe cape =>
    match db.user_subscriptions.filter
        (fun s => decide (s.stripe_customer_id = cid)) with
    | [_] =>
      { db with user_subscriptions :=
          db.user_subscriptions.map fun s =>
            if s.stripe_customer_id = cid
              then { s with
                     stripe_subscription_id := sid, status := st,
                     current_period_start := ps, current_period_end := pe,
                     cancel_at_period_end := cape }
              else s }
    | _ => db
  | .customer_subscription_deleted sid =>
    { db with user_subscriptions :=
        db.user_subscriptions.map fun s =>
          if s.stripe_subscription_id = sid
            then { s with status := "canceled" } else s }
  | .otherEvent => db

/-- Response of the webhook route. -/
inductive WebhookResult where
  | webhookNotConfigured
  | invalidSignature
  | received
deriving DecidableEq, Repr

/-- POST /api/payments/webhooks: the handler first checks the configured
secret, then calls constructEvent, which throws on a bad signature; only a
verified event reaches the supabase client and the switch.  constructEvent
is the external Stripe SDK, so its outcome is passed in: none models a
signature verification failure. -/
def webhookPOST (webhookSecretConfigured : Bool)
    (constructedEvent : Option StripeEvent) (db : Db) : WebhookResult × Db :=
  if webhookSecretConfigured = false then (.webhookNotConfigured, db)
  else
    match constructedEvent with
    | none => (.invalidSignature, db)
    | some e => (.received, processWebhookEvent db e)

/-- Errors of the signature middleware. -/
inductive SignatureError where
  | missingSignature
  | invalidSignature
deriving DecidableEq, Repr

/-- Signature middleware: a missing header is rejected with 401, then the
header is compared against sha256= followed by the hex HMAC of the raw body
under the shared secret; a mismatch is rejected with 401, otherwise next()
runs (outcome none).  The HMAC itself is the node crypto library, passed in
as a function. -/
def validateSignature (hmacHex : String → String → String) (secret : String)
    (signatureHeader : Option String) (body : String) :
    Option SignatureError :=
  match signatureHeader with
  | none => some .missingSignature
  | some signature =>
    if signature ≠ "sha256=" ++ hmacHex secret body then
      some .invalidSignature
    else none

/-- Outcomes of the policy loop are denials only, never a success payload. -/
theorem checkPolicies_not_sponsored (db : Db) (userId fee now : Nat)
    (faults : ReadFaults) (l : List SecurityPolicy) (r : SponsorResult)
    (h : checkPolicies db userId fee now faults l = some r) :
    ∀ row, r ≠ SponsorResult.sponsored row := by
  intro row hc
  subst hc
  induction l with
  | nil => simp [checkPolicies] at h
  | cons p rest ih =>
    simp only [checkPolicies] at h
    repeat' split at h
    all_goals first
      | simp at h
      | exact ih h

/-- C1: for every sponsor call that creates a sponsorship row, the nonce of
the new row is strictly greater than every nonce previously allocated to the
same user, and the first nonce allocated to a user is 1; the sequential
(no-interleaving) execution of the handler is what the state-passing model
expresses. -/
theorem sponsor_allocates_strictly_increasing_nonce
    (db : Db) (userId txId fee now : Nat) (faults : ReadFaults)
    (row : GaslessRow) (db2 : Db)
    (h : sponsor db userId txId fee now faults = (.sponsored row, db2)) :
    (∀ g ∈ db.gasless_transactions, g.user_id = userId →
      g.nonce < row.nonce) ∧
    ((∀ g ∈ db.gasless_transactions, g.user_id ≠ userId) → row.nonce = 1) := by
  have hrow : row.nonce = generate_transaction_nonce db userId := by
    simp only [sponsor] at h
    repeat' split at h
    all_goals simp only [Prod.mk.injEq, SponsorResult.sponsored.injEq] at h
    all_goals try (simp at h; done)
    all_goals try (rename_i h0; exact absurd h0 (generate_transaction_nonce_ne_zero db userId))
    all_goals try (rename_i heq; exact absurd h.1 (checkPolicies_not_sponsored _ _ _ _ _ _ _ heq row))
    all_goals rw [← h.1]
  constructor
  · intro g hg hu
    rw [hrow]
    exact nonce_gt_all_user_nonces db userId g hg hu
  · intro hnone
    rw [hrow]
    exact generate_transaction_nonce_eq_one_of_no_rows db userId hnone

/-- Pre-state for the C1 witness: user 1 owns transaction 10 and already has
two sponsorship rows with nonces 1 and 2. -/
def dbC1 : Db :=
  { transactions := [{ id := 10, user_id := 1, status := "pending" }],
    security_policies := [],
    gasless_transactions :=
      [{ user_id := 1, transaction_id := 8, sponsor_address := "a",
         gas_fee_ada := 2, status := "sponsored", nonce := 1,
         expires_at := 100, created_at := 0 },
       { user_id := 1, transaction_id := 9, sponsor_address := "a",
         gas_fee_ada := 2, status := "sponsored", nonce := 2,
         expires_at := 100, created_at := 0 }],
    tokens := [], multi_sig_wallets := [], wallet_signers := [],
    payment_transactions := [], user_subscriptions := [], next_id := 0 }

/-- Earliest sponsorship row of user 1 in the C1 witness state. -/
def gC1 : GaslessRow :=
  { user_id := 1, transaction_id := 8, sponsor_address := "a",
    gas_fee_ada := 2, status := "sponsored", nonce := 1,
    expires_at := 100, created_at := 0 }

/-- Row the sponsor call of the C1 witness creates: nonce 3 = max(1, 2) + 1. -/
def rowC1 : GaslessRow :=
  { user_id := 1, transaction_id := 10,
    sponsor_address := "addr1_kepka_sponsor_treasury_address",
    gas_fee_ada := 5, status := "sponsored", nonce := 3,
    expires_at := 1000 + 30 * 60 * 1000, created_at := 1000 }

/-- Post-state of the C1 witness call. -/
def dbC1out : Db :=
  { dbC1 with gasless_transactions := dbC1.gasless_transactions ++ [rowC1] }

/-- C1 witness: the sponsor call on dbC1 creates rowC1 and the nonce of the
pre-existing row gC1 is strictly below the new nonce. -/
theorem sponsor_allocates_strictly_increasing_nonce_witness :
    gC1.nonce < rowC1.nonce := by
  have h := sponsor_allocates_strictly_increasing_nonce dbC1 1 10 5 1000
    noFaults rowC1 dbC1out (by decide)
  exact h.1 gC1 (by decide) (by decide)

/-- State for the C2 evaluation: user 1 owns transaction 10, has one active
rate_limit policy allowing at most 1 gasless transaction per hour, and
already has one gasless row created inside the window, so an honest policy
evaluation denies the next sponsor call. -/
def dbC2 : Db :=
  { transactions := [{ id := 10, user_id := 1, status := "pending" }],
    security_policies :=
      [{ user_id := 1, policy_type := "rate_limit",
         policy_config := { hours := 1, max_transactions := 1, max_amount := 0 },
         is_active := true }],
    gasless_transactions :=
      [{ user_id := 1, transaction_id := 9, sponsor_address := "a",
         gas_fee_ada := 2, status := "sponsored", nonce := 1,
         expires_at := 999000, created_at := 999000 }],
    tokens := [], multi_sig_wallets := [], wallet_signers := [],
    payment_transactions := [], user_subscriptions := [], next_id := 0 }

/-- Fault pattern where the recent-history read of the rate_limit check
errors. -/
def recentReadFault : ReadFaults :=
  { policiesReadError := false, recentReadError := true,
    nonceError := false, insertError := false }

/-- Fault pattern where the security_policies read errors. -/
def policiesReadFault : ReadFaults :=
  { policiesReadError := true, recentReadError := false,
    nonceError := false, insertError := false }

/-- C2: the sponsor handler fails OPEN, not closed.  On dbC2 the fault-free
run is denied with the rate-limit error, but when the recent-history read
errors (the handler reads recentTxs?.length || 0) or when the policies read
errors (the handler destructures only the data member, so the loop runs over
an empty list), the same call is sponsored.  This contradicts the claim that
a failed persistence read makes the evaluation deny. -/
theorem sponsor_fails_open_on_read_error :
    isSponsored (sponsor dbC2 1 10 5 1000000 recentReadFault).1 = true ∧
    isSponsored (sponsor dbC2 1 10 5 1000000 policiesReadFault).1 = true ∧
    sponsor dbC2 1 10 5 1000000 noFaults =
      (.rateLimitExceeded 1 1, dbC2) := by
  refine ⟨by decide, by decide, by decide⟩

/-- Violated rate_limit policies make the policy loop deny with a rate-limit
error, provided every amount_limit policy in the list passes. -/
theorem checkPolicies_denies_of_rate_violation
    (db : Db) (userId fee now : Nat) (l : List SecurityPolicy)
    (hex : ∃ p ∈ l, p.policy_type = "rate_limit" ∧
      p.policy_config.max_transactions ≤
        recentGaslessCount db userId now p.policy_config.hours)
    (hamt : ∀ q ∈ l, q.policy_type = "amount_limit" →
      fee ≤ q.policy_config.max_amount) :
    ∃ m hw, checkPolicies db userId fee now noFaults l =
      some (SponsorResult.rateLimitExceeded m hw) := by
  induction l with
  | nil =>
    rcases hex with ⟨p, hp, _⟩
    cases hp
  | cons p0 rest ih =>
    by_cases hty : p0.policy_type = "rate_limit"
    · by_cases hcnt : p0.policy_config.max_transactions ≤
         recentGaslessCount db userId now p0.policy_config.hours
      · refine ⟨p0.policy_config.max_transactions, p0.policy_config.hours, ?_⟩
        simp [checkPolicies, hty, noFaults, hcnt]
      · have hex2 : ∃ p ∈ rest, p.policy_type = "rate_limit" ∧
            p.policy_config.max_transactions ≤
              recentGaslessCount db userId now p.policy_config.hours := by
          rcases hex with ⟨p, hp, hr, hc⟩
          rcases List.mem_cons.mp hp with hpp | hmem
          · subst hpp
            exact absurd hc hcnt
          · exact ⟨p, hmem, hr, hc⟩
        rcases ih hex2 (fun q hq hqa => hamt q (List.mem_cons_of_mem _ hq) hqa)
          with ⟨m, hw, hcp⟩
        have hnf : noFaults.recentReadError = false := rfl
        refine ⟨m, hw, ?_⟩
        simp [checkPolicies, hty, hnf, hcnt, hcp]
    · have hex2 : ∃ p ∈ rest, p.policy_type = "rate_limit" ∧
          p.policy_config.max_transactions ≤
            recentGaslessCount db userId now p.policy_config.hours := by
        rcases hex with ⟨p, hp, hr, hc⟩
        rcases List.mem_cons.mp hp with hpp | hmem
        · subst hpp
          exact absurd hr hty
        · exact ⟨p, hmem, hr, hc⟩
      rcases ih hex2 (fun q hq hqa => hamt q (List.mem_cons_of_mem _ hq) hqa)
        with ⟨m, hw, hcp⟩
      by_cases hty2 : p0.policy_type = "amount_limit"
      · have hle : fee ≤ p0.policy_config.max_amount :=
          hamt p0 (List.mem_cons_self _ _) hty2
        have hnlt : ¬ p0.policy_config.max_amount < fee := not_lt.mpr hle
        refine ⟨m, hw, ?_⟩
        simp [checkPolicies, hty, hty2, hnlt, hcp]
      · refine ⟨m, hw, ?_⟩
        simp [checkPolicies, hty, hty2, hcp]

/-- C3: a sponsor call by a user whose active rate_limit policy window count
has reached max_transactions is answered with the 429 rate-limit denial, the
gasless table is left unchanged (no sponsorship row is created) and the call
does not produce the success payload.  The amount hypothesis pins down that
no amount_limit policy of the user fires first, which makes the denial the
rate-limit one rather than a different policy denial. -/
theorem sponsor_denies_when_rate_limit_reached
    (db : Db) (userId txId fee now : Nat) (t : Txn) (p : SecurityPolicy)
    (hfee : 1 ≤ fee)
    (htx : findTransaction db txId userId = some t)
    (hp : p ∈ activePolicies db userId)
    (hty : p.policy_type = "rate_limit")
    (hcnt : p.policy_config.max_transactions ≤
      recentGaslessCount db userId now p.policy_config.hours)
    (hamt : ∀ q ∈ activePolicies db userId, q.policy_type = "amount_limit" →
      fee ≤ q.policy_config.max_amount) :
    isRateLimitDenial (sponsor db userId txId fee now noFaults).1 = true ∧
    (sponsor db userId txId fee now noFaults).2 = db ∧
    isSponsored (sponsor db userId txId fee now noFaults).1 = false := by
  obtain ⟨m, hw, hcp⟩ := checkPolicies_denies_of_rate_violation db userId fee
    now (activePolicies db userId) ⟨p, hp, hty, hcnt⟩ hamt
  have hnlt : ¬ fee < 1 := not_lt.mpr hfee
  have hnp : noFaults.policiesReadError = false := rfl
  simp [sponsor, hnlt, htx, hnp, hcp, isRateLimitDenial, isSponsored]

/-- State for the C3 witness: like dbC2 but under a separate name so the
claims stay independent. -/
def dbC3 : Db :=
  { transactions := [{ id := 10, user_id := 1, status := "pending" }],
    security_policies :=
      [{ user_id := 1, policy_type := "rate_limit",
         policy_config := { hours := 1, max_transactions := 1, max_amount := 0 },
         is_active := true }],
    gasless_transactions :=
      [{ user_id := 1, transaction_id := 9, sponsor_address := "a",
         gas_fee_ada := 2, status := "sponsored", nonce := 1,
         expires_at := 999000, created_at := 999000 }],
    tokens := [], multi_sig_wallets := [], wallet_signers := [],
    payment_transactions := [], user_subscriptions := [], next_id := 0 }

/-- Transaction of user 1 in the C3 witness state. -/
def txC3 : Txn := { id := 10, user_id := 1, status := "pending" }

/-- Active rate_limit policy of user 1 in the C3 witness state. -/
def polC3 : SecurityPolicy :=
  { user_id := 1, policy_type := "rate_limit",
    policy_config := { hours := 1, max_transactions := 1, max_amount := 0 },
    is_active := true }

/-- C3 witness: the second sponsor call of the spec scenario (policy hours 1,
max 1, one recent row) is denied with the rate-limit error and writes
nothing. -/
theorem sponsor_denies_when_rate_limit_reached_witness :
    isRateLimitDenial (sponsor dbC3 1 10 5 1000000 noFaults).1 = true ∧
    (sponsor dbC3 1 10 5 1000000 noFaults).2 = dbC3 ∧
    isSponsored (sponsor dbC3 1 10 5 1000000 noFaults).1 = false :=
  sponsor_denies_when_rate_limit_reached dbC3 1 10 5 1000000 txC3 polC3
    (by decide) (by decide) (by decide) (by decide) (by decide) (by decide)

/-- C4: with a single active amount_limit policy, a fee exactly equal to
max_amount passes the policy and the call is sponsored, while a fee of
max_amount + 1 is denied with the amount-limit error and writes nothing. -/
theorem sponsor_amount_limit_boundary
    (db : Db) (userId txId now : Nat) (t : Txn) (p : SecurityPolicy)
    (htx : findTransaction db txId userId = some t)
    (hpol : activePolicies db userId = [p])
    (hty : p.policy_type = "amount_limit")
    (hm : 1 ≤ p.policy_config.max_amount) :
    isSponsored
      (sponsor db userId txId p.policy_config.max_amount now noFaults).1 =
        true ∧
    sponsor db userId txId (p.policy_config.max_amount + 1) now noFaults =
      (.amountLimitExceeded p.policy_config.max_amount, db) := by
  have hne : p.policy_type ≠ "rate_limit" := by
    rw [hty]
    decide
  constructor
  · have hnlt : ¬ p.policy_config.max_amount < 1 := not_lt.mpr hm
    have hcp : checkPolicies db userId p.policy_config.max_amount now noFaults
        [p] = none := by
      simp [checkPolicies, hne, hty]
    have hnp : noFaults.policiesReadError = false := rfl
    have hnn : noFaults.nonceError = false := rfl
    have hni : noFaults.insertError = false := rfl
    simp [sponsor, hnlt, htx, hnp, hnn, hni, hpol, hcp, isSponsored]
  · have hnlt : ¬ p.policy_config.max_amount + 1 < 1 := by omega
    have hcp : checkPolicies db userId (p.policy_config.max_amount + 1) now
        noFaults [p] =
        some (.amountLimitExceeded p.policy_config.max_amount) := by
      simp [checkPolicies, hne, hty]
    have hnp : noFaults.policiesReadError = false := rfl
    simp [sponsor, hnlt, htx, hnp, hpol, hcp]

/-- State for the C4 witness: user 1 owns transaction 10 and has one active
amount_limit policy with max_amount 100. -/
def dbC4 : Db :=
  { transactions := [{ id := 10, user_id := 1, status := "pending" }],
    security_policies :=
      [{ user_id := 1, policy_type := "amount_limit",
         policy_config := { hours := 0, max_transactions := 0, max_amount := 100 },
         is_active := true }],
    gasless_transactions := [],
    tokens := [], multi_sig_wallets := [], wallet_signers := [],
    payment_transactions := [], user_subscriptions := [], next_id := 0 }

/-- Transaction of user 1 in the C4 witness state. -/
def txC4 : Txn := { id := 10, user_id := 1, status := "pending" }

/-- Active amount_limit policy of user 1 in the C4 witness state. -/
def polC4 : SecurityPolicy :=
  { user_id := 1, policy_type := "amount_limit",
    policy_config := { hours := 0, max_transactions := 0, max_amount := 100 },
    is_active := true }

/-- C4 witness: fee 100 is sponsored, fee 101 is denied with the
amount-limit error on the concrete state dbC4. -/
theorem sponsor_amount_limit_boundary_witness :
    isSponsored (sponsor dbC4 1 10 100 5000 noFaults).1 = true ∧
    sponsor dbC4 1 10 (100 + 1) 5000 noFaults =
      (.amountLimitExceeded 100, dbC4) :=
  sponsor_amount_limit_boundary dbC4 1 10 5000 txC4 polC4
    (by decide) (by decide) (by decide) (by decide)

/-- Filtering a mapped list commutes with mapping the filtered list when the
mapping preserves the predicate. -/
theorem filter_map_of_pred_preserved {α : Type} (l : List α) (f : α → α)
    (p : α → Bool) (hp : ∀ a, p (f a) = p a) :
    (l.map f).filter p = (l.filter p).map f := by
  induction l with
  | nil => rfl
  | cons x xs ih =>
    by_cases hx : p x = true
    · simp [List.filter_cons, hp, hx, ih]
    · simp only [Bool.not_eq_true] at hx
      simp [List.filter_cons, hp, hx, ih]

/-- A successful transaction lookup inverts to a singleton filter result. -/
theorem findTransaction_eq_singleton (db : Db) (txId userId : Nat) (t : Txn)
    (h : findTransaction db txId userId = some t) :
    db.transactions.filter
      (fun u => decide (u.id = txId ∧ u.user_id = userId)) = [t] := by
  unfold findTransaction at h
  split at h
  · rename_i t0 heq
    cases h
    exact heq
  · exact Option.noConfusion h

/-- C5 counterexample: on dbC5 the transaction 10 of user 1 is in the
terminal status confirmed, yet the status-update endpoint moves it back to
pending and persists that, contradicting the claim that terminal states do
not transition further. -/
def dbC5 : Db :=
  { transactions := [{ id := 10, user_id := 1, status := "confirmed" }],
    security_policies := [], gasless_transactions := [],
    tokens := [], multi_sig_wallets := [], wallet_signers := [],
    payment_transactions := [], user_subscriptions := [], next_id := 0 }

/-- C5 counterexample theorem: a confirmed transaction is transitioned to
pending by PATCH /api/transactions/:id/status and the new status is
persisted, refuting the claim at a concrete input. -/
theorem updateTransactionStatus_moves_confirmed_back_to_pending :
    findTransaction dbC5 10 1 =
      some { id := 10, user_id := 1, status := "confirmed" } ∧
    (updateTransactionStatus dbC5 1 10 "pending").1 =
      .updated { id := 10, user_id := 1, status := "pending" } ∧
    findTransaction (updateTransactionStatus dbC5 1 10 "pending").2 10 1 =
      some { id := 10, user_id := 1, status := "pending" } := by
  refine ⟨by decide, by decide, by decide⟩

/-- C5 amended: the status-update endpoint sets the status of the addressed
transaction to any requested enum value (pending, confirmed or failed) with
no regard to the current status, and persists it; in particular terminal
rows can transition again. -/
theorem updateTransactionStatus_sets_any_enum_status
    (db : Db) (userId txId : Nat) (s : String) (t : Txn)
    (hs : s = "pending" ∨ s = "confirmed" ∨ s = "failed")
    (ht : findTransaction db txId userId = some t) :
    (updateTransactionStatus db userId txId s).1 =
      .updated { t with status := s } ∧
    findTransaction (updateTransactionStatus db userId txId s).2 txId userId =
      some { t with status := s } := by
  have hupd : updateTransactionStatus db userId txId s =
      (.updated { t with status := s },
        { db with transactions :=
            db.transactions.map fun u =>
              if u.id = txId ∧ u.user_id = userId
                then { u with status := s } else u }) := by
    unfold updateTransactionStatus
    rw [if_pos hs, ht]
  have hfl := findTransaction_eq_singleton db txId userId t ht
  have htmem : t ∈ db.transactions.filter
      (fun u => decide (u.id = txId ∧ u.user_id = userId)) := by
    rw [hfl]
    exact List.mem_singleton.mpr rfl
  have hpt : t.id = txId ∧ t.user_id = userId :=
    of_decide_eq_true (List.mem_filter.mp htmem).2
  constructor
  · rw [hupd]
  · rw [hupd]
    unfold findTransaction
    rw [show ({ db with transactions :=
        db.transactions.map fun u =>
          if u.id = txId ∧ u.user_id = userId
            then { u with status := s } else u } : Db).transactions =
        db.transactions.map (fun u =>
          if u.id = txId ∧ u.user_id = userId
            then { u with status := s } else u) from rfl]
    rw [filter_map_of_pred_preserved _ _ _ ?_]
    · rw [hfl]
      simp [hpt.1, hpt.2]
    · intro a
      by_cases ha : a.id = txId ∧ a.user_id = userId
      · simp [ha]
      · simp [ha]

/-- C5 amended witness: on dbC5 the confirmed transaction is moved to the
other terminal status failed, and the change is persisted. -/
theorem updateTransactionStatus_sets_any_enum_status_witness :
    (updateTransactionStatus dbC5 1 10 "failed").1 =
      .updated { id := 10, user_id := 1, status := "failed" } ∧
    findTransaction (updateTransactionStatus dbC5 1 10 "failed").2 10 1 =
      some { id := 10, user_id := 1, status := "failed" } :=
  updateTransactionStatus_sets_any_enum_status dbC5 1 10 "failed"
    { id := 10, user_id := 1, status := "confirmed" }
    (by decide) (by decide)

/-- Gasless row for the C6 state: status sponsored, already expired at the
observation time 10000. -/
def gC6 : GaslessRow :=
  { user_id := 1, transaction_id := 9, sponsor_address := "a",
    gas_fee_ada := 2, status := "sponsored", nonce := 1,
    expires_at := 5000, created_at := 0 }

/-- State for C6: one expired sponsored row of user 1. -/
def dbC6 : Db :=
  { transactions := [], security_policies := [],
    gasless_transactions := [gC6],
    tokens := [], multi_sig_wallets := [], wallet_signers := [],
    payment_transactions := [], user_subscriptions := [], next_id := 0 }

/-- C6 counterexample: the read endpoint returns the expired, non-executed
row with its stored status sponsored, not as failed, refuting the claim that
any subsequent read reports such a row as failed. -/
theorem getGaslessTransactions_reports_expired_as_stored :
    getGaslessTransactions dbC6 1 = [gC6] ∧
    gC6.expires_at < 10000 ∧ gC6.status ≠ "executed" ∧
    gC6.status = "sponsored" ∧ gC6.status ≠ "failed" := by
  refine ⟨by decide, by decide, by decide, by decide, by decide⟩

/-- Every run of the sponsor handler either leaves the gasless table
unchanged or appends one row whose status is sponsored. -/
theorem sponsor_gasless_state_cases (db : Db) (userId txId fee now : Nat)
    (faults : ReadFaults) :
    (sponsor db userId txId fee now faults).2.gasless_transactions =
      db.gasless_transactions ∨
    ∃ row, (sponsor db userId txId fee now faults).2.gasless_transactions =
      db.gasless_transactions ++ [row] ∧ row.status = "sponsored" := by
  simp only [sponsor]
  repeat' split
  all_goals first
    | exact Or.inl rfl
    | exact Or.inr ⟨_, rfl, rfl⟩

/-- C6 amended: reads return the stored rows unchanged, so an expired
non-executed sponsorship keeps reporting its stored status (no lazy expiry
check exists), and the only gasless write of the repository appends rows in
status sponsored, so no operation ever moves a sponsorship, expired or not,
to status executed. -/
theorem gasless_reads_stored_status_and_never_executed
    (db : Db) (userId txId fee now : Nat) (faults : ReadFaults) :
    (∀ g ∈ getGaslessTransactions db userId, g ∈ db.gasless_transactions) ∧
    (∀ g ∈ (sponsor db userId txId fee now faults).2.gasless_transactions,
      g ∈ db.gasless_transactions ∨ g.status = "sponsored") := by
  constructor
  · intro g hg
    exact List.mem_of_mem_filter hg
  · intro g hg
    rcases sponsor_gasless_state_cases db userId txId fee now faults with
      hc | ⟨row, hc, hrow⟩
    · rw [hc] at hg
      exact Or.inl hg
    · rw [hc] at hg
      rcases List.mem_append.mp hg with hmem | hmem
      · exact Or.inl hmem
      · rw [List.mem_singleton.mp hmem]
        exact Or.inr hrow

/-- C6 amended witness: the expired sponsored row returned by the read on
dbC6 is exactly a stored row. -/
theorem gasless_reads_stored_status_and_never_executed_witness :
    gC6 ∈ dbC6.gasless_transactions :=
  (gasless_reads_stored_status_and_never_executed dbC6 1 0 0 0 noFaults).1
    gC6 (by decide)

/-- Mapping twice with a function that is idempotent on every element is the
same as mapping once. -/
theorem map_map_eq_map_of_idem {α : Type} (l : List α) (f : α → α)
    (hf : ∀ a, f (f a) = f a) : (l.map f).map f = l.map f := by
  induction l with
  | nil => rfl
  | cons x xs ih => simp [hf, ih]

/-- Updating the status of the payment rows keyed by one intent id is
idempotent on the list. -/
theorem payment_map_idem (pid v : String) (l : List PaymentTransaction) :
    ((l.map fun t => if t.stripe_payment_intent_id = pid
        then { t with status := v } else t).map fun t =>
        if t.stripe_payment_intent_id = pid
          then { t with status := v } else t) =
    (l.map fun t => if t.stripe_payment_intent_id = pid
        then { t with status := v } else t) := by
  apply map_map_eq_map_of_idem
  intro a
  by_cases h : a.stripe_payment_intent_id = pid <;> simp [h]

/-- Cancelling the subscription rows keyed by one subscription id is
idempotent on the list. -/
theorem subscription_cancel_map_idem (sid : String)
    (l : List UserSubscription) :
    ((l.map fun s => if s.stripe_subscription_id = sid
        then { s with status := "canceled" } else s).map fun s =>
        if s.stripe_subscription_id = sid
          then { s with status := "canceled" } else s) =
    (l.map fun s => if s.stripe_subscription_id = sid
        then { s with status := "canceled" } else s) := by
  apply map_map_eq_map_of_idem
  intro a
  by_cases h : a.stripe_subscription_id = sid <;> simp [h]

/-- Rewriting the subscription rows keyed by one customer id with fixed new
field values is idempotent on the list. -/
theorem subscription_update_map_idem (sid cid st : String) (ps pe : Nat)
    (cape : Bool) (l : List UserSubscription) :
    ((l.map fun s => if s.stripe_customer_id = cid
        then { s with
               stripe_subscription_id := sid, status := st,
               current_period_start := ps, current_period_end := pe,
               cancel_at_period_end := cape } else s).map fun s =>
        if s.stripe_customer_id = cid
          then { s with
                 stripe_subscription_id := sid, status := st,
                 current_period_start := ps, current_period_end := pe,
                 cancel_at_period_end := cape } else s) =
    (l.map fun s => if s.stripe_customer_id = cid
        then { s with
               stripe_subscription_id := sid, status := st,
               current_period_start := ps, current_period_end := pe,
               cancel_at_period_end := cape } else s) := by
  apply map_map_eq_map_of_idem
  intro a
  by_cases h : a.stripe_customer_id = cid <;> simp [h]

/-- The subscription rewrite preserves the customer id, so filtering by
customer id commutes with it. -/
theorem subscription_update_filter_comm (sid cid st : String) (ps pe : Nat)
    (cape : Bool) (l : List UserSubscription) :
    ((l.map fun s => if s.stripe_customer_id = cid
        then { s with
               stripe_subscription_id := sid, status := st,
               current_period_start := ps, current_period_end := pe,
               cancel_at_period_end := cape } else s).filter fun s =>
        decide (s.stripe_customer_id = cid)) =
    ((l.filter fun s => decide (s.stripe_customer_id = cid)).map fun s =>
        if s.stripe_customer_id = cid
          then { s with
                 stripe_subscription_id := sid, status := st,
                 current_period_start := ps, current_period_end := pe,
                 cancel_at_period_end := cape } else s) := by
  apply filter_map_of_pred_preserved
  intro a
  by_cases h : a.stripe_customer_id = cid <;> simp [h]

/-- C7: the webhook switch is idempotent: delivering the same verified event
twice leaves the billing tables in the state of one delivery, and a delivery
never changes the number of billing rows (every branch is an update keyed by
a gateway id, never an insert).  The updated_at timestamp column is outside
the model, matching the up-to-timestamps reading of the claim. -/
theorem processWebhookEvent_idempotent (db : Db) (e : StripeEvent) :
    processWebhookEvent (processWebhookEvent db e) e =
      processWebhookEvent db e ∧
    (processWebhookEvent db e).payment_transactions.length =
      db.payment_transactions.length ∧
    (processWebhookEvent db e).user_subscriptions.length =
      db.user_subscriptions.length := by
  rcases e with pid | pid | ⟨sid, cid, st, ps, pe, cape⟩ | sid | _
  · refine ⟨?_, ?_, ?_⟩
    · simp [processWebhookEvent, payment_map_idem]
      intro a ha hkey
      by_cases h : a.stripe_payment_intent_id = pid
      · simp [h]
      · simp [h] at hkey
    · simp [processWebhookEvent]
    · simp [processWebhookEvent]
  · refine ⟨?_, ?_, ?_⟩
    · simp [processWebhookEvent, payment_map_idem]
      intro a ha hkey
      by_cases h : a.stripe_payment_intent_id = pid
      · simp [h]
      · simp [h] at hkey
    · simp [processWebhookEvent]
    · simp [processWebhookEvent]
  · refine ⟨?_, ?_, ?_⟩
    · simp only [processWebhookEvent]
      rcases hfl : db.user_subscriptions.filter
          (fun s => decide (s.stripe_customer_id = cid)) with _ | ⟨x, _ | ⟨y, tl⟩⟩
      · simp [hfl]
      · simp only [hfl]
        rw [subscription_update_filter_comm]
        rw [hfl]
        simp [subscription_update_map_idem]
        intro a ha hkey
        by_cases h : a.stripe_customer_id = cid
        · simp [h]
        · simp [h] at hkey
      · simp [hfl]
    · simp only [processWebhookEvent]
      rcases hfl : db.user_subscriptions.filter
          (fun s => decide (s.stripe_customer_id = cid)) with _ | ⟨x, _ | ⟨y, tl⟩⟩
      · simp [hfl]
      · simp [hfl]
      · simp [hfl]
    · simp only [processWebhookEvent]
      rcases hfl : db.user_subscriptions.filter
          (fun s => decide (s.stripe_customer_id = cid)) with _ | ⟨x, _ | ⟨y, tl⟩⟩
      · simp [hfl]
      · simp [hfl]
      · simp [hfl]
  · refine ⟨?_, ?_, ?_⟩
    · simp [processWebhookEvent, subscription_cancel_map_idem]
      intro a ha hkey
      by_cases h : a.stripe_subscription_id = sid
      · simp [h]
      · simp [h] at hkey
    · simp [processWebhookEvent]
    · simp [processWebhookEvent]
  · exact ⟨rfl, rfl, rfl⟩

/-- C8: a webhook request whose signature does not verify is rejected with
the authentication error before any business logic: the middleware returns a
401 error instead of calling next(), and the route handler whose
constructEvent call fails answers invalidSignature with the persistence
state untouched (no billing row read or mutated). -/
theorem webhook_rejects_bad_signature_before_business_logic
    (hmacHex : String → String → String) (secret body : String)
    (sig : Option String) (db : Db)
    (hbad : sig ≠ some ("sha256=" ++ hmacHex secret body)) :
    (validateSignature hmacHex secret sig body).isSome = true ∧
    webhookPOST true none db = (.invalidSignature, db) := by
  constructor
  · rcases sig with _ | s
    · rfl
    · have hs : s ≠ "sha256=" ++ hmacHex secret body := by
        intro hc
        exact hbad (by rw [hc])
      simp [validateSignature, hs]
  · rfl

/-- Empty persistence state for the C8 witness. -/
def dbC8 : Db :=
  { transactions := [], security_policies := [], gasless_transactions := [],
    tokens := [], multi_sig_wallets := [], wallet_signers := [],
    payment_transactions := [], user_subscriptions := [], next_id := 0 }

/-- C8 witness: a concrete mismatched signature header is rejected by the
middleware and the route leaves the state unchanged. -/
theorem webhook_rejects_bad_signature_before_business_logic_witness :
    (validateSignature (fun _ _ => "00") "k" (some "zz") "b").isSome = true ∧
    webhookPOST true none dbC8 = (.invalidSignature, dbC8) :=
  webhook_rejects_bad_signature_before_business_logic (fun _ _ => "00")
    "k" "b" (some "zz") dbC8 (by decide)

/-- Projection of a token-creation outcome to the created row. -/
def tokenOfResult : CreateTokenResult → Option TokenRow
  | .created t => some t
  | _ => none

/-- C9: a token-creation request by a valid owner that passes validation
creates a row whose total_supply is the caller value with default 0 and
whose decimals are the caller value with default 6, and appends exactly one
row to the tokens table. -/
theorem createToken_defaults (db : Db) (userId : Nat) (req : TokenRequest)
    (hvalid : tokenRequestValid req = true) :
    (tokenOfResult (createToken db userId req false).1).map
      TokenRow.total_supply = some (req.total_supply.getD 0) ∧
    (tokenOfResult (createToken db userId req false).1).map
      TokenRow.decimals = some (req.decimals.getD 6) ∧
    (createToken db userId req false).2.tokens.length =
      db.tokens.length + 1 := by
  refine ⟨?_, ?_, ?_⟩ <;> simp [createToken, hvalid, tokenOfResult]

/-- Empty persistence state for the C9 witness. -/
def dbC9 : Db :=
  { transactions := [], security_policies := [], gasless_transactions := [],
    tokens := [], multi_sig_wallets := [], wallet_signers := [],
    payment_transactions := [], user_subscriptions := [], next_id := 0 }

/-- Request of the C9 witness: the spec scenario token with decimals and
total_supply omitted. -/
def reqC9 : TokenRequest :=
  { token_name := "MyToken", symbol := "MTK", policy_id := "p",
    asset_name := "MTK", decimals := none, total_supply := none,
    description := none, image_url := none }

/-- C9 witness: the created token starts at total_supply 0 and decimals 6
when both fields are omitted. -/
theorem createToken_defaults_witness :
    (tokenOfResult (createToken dbC9 1 reqC9 false).1).map
      TokenRow.total_supply = some 0 ∧
    (tokenOfResult (createToken dbC9 1 reqC9 false).1).map
      TokenRow.decimals = some 6 ∧
    (createToken dbC9 1 reqC9 false).2.tokens.length =
      dbC9.tokens.length + 1 :=
  createToken_defaults dbC9 1 reqC9 (by decide)

/-- Filtering with a predicate every element satisfies is the identity. -/
theorem filter_eq_self_of_all {α : Type} (l : List α) (p : α → Bool)
    (h : ∀ a ∈ l, p a = true) : l.filter p = l := by
  induction l with
  | nil => rfl
  | cons x xs ih =>
    have hx := h x (List.mem_cons_self x xs)
    have ih2 := ih (fun a ha => h a (List.mem_cons_of_mem x ha))
    simp [List.filter_cons, hx, ih2]

/-- C10: wallet creation rejects a configuration where required_signatures
exceeds total_signers or where the number of signers differs from
total_signers, writing nothing; when the signers insert fails after the
wallet insert, the created wallet row is deleted again and an error is
returned, leaving both tables as before; and a successful creation appends
the wallet together with one signer row per requested signer (a non-empty
set keyed to the new wallet id), so no wallet row ever remains without its
signer rows. -/
theorem createMultiSigWallet_validates_and_rolls_back
    (db : Db) (userId : Nat) (wn : String) (rs ts : Nat) (wa sh2 : String)
    (signers : List SignerRequest) (sf : Bool)
    (hvalid : walletRequestValid wn rs ts wa sh2 signers = true)
    (hfresh : ∀ w ∈ db.multi_sig_wallets, w.id ≠ db.next_id) :
    (ts < rs ∨ signers.length ≠ ts →
      createMultiSigWallet db userId wn rs ts wa sh2 signers false sf =
        (.invalidConfiguration, db)) ∧
    (rs ≤ ts → signers.length = ts → sf = true →
      (createMultiSigWallet db userId wn rs ts wa sh2 signers false sf).1 =
        .signersInsertFailed ∧
      (createMultiSigWallet db userId wn rs ts wa sh2 signers
        false sf).2.multi_sig_wallets = db.multi_sig_wallets ∧
      (createMultiSigWallet db userId wn rs ts wa sh2 signers
        false sf).2.wallet_signers = db.wallet_signers) ∧
    (rs ≤ ts → signers.length = ts → sf = false →
      ∃ w sdata,
        (createMultiSigWallet db userId wn rs ts wa sh2 signers false sf).1 =
          .created w sdata ∧
        (createMultiSigWallet db userId wn rs ts wa sh2 signers
          false sf).2.multi_sig_wallets = db.multi_sig_wallets ++ [w] ∧
        (createMultiSigWallet db userId wn rs ts wa sh2 signers
          false sf).2.wallet_signers = db.wallet_signers ++ sdata ∧
        sdata.length = ts ∧
        sdata.all (fun s2 => s2.multi_sig_wallet_id == w.id) = true ∧
        sdata ≠ []) := by
  have hsne : signers ≠ [] := by
    intro hc
    have hv2 := hvalid
    simp only [walletRequestValid, Bool.and_eq_true] at hv2
    have hemp := hv2.1.2
    rw [hc] at hemp
    simp at hemp
  refine ⟨?_, ?_, ?_⟩
  · intro hbad
    by_cases hlt : ts < rs
    · simp [createMultiSigWallet, hvalid, hlt]
    · rcases hbad with hlt2 | hne
      · exact absurd hlt2 hlt
      · simp [createMultiSigWallet, hvalid, hlt, hne]
  · intro hle hlen hsf
    subst hsf
    have hnlt : ¬ ts < rs := not_lt.mpr hle
    refine ⟨?_, ?_, ?_⟩
    · simp [createMultiSigWallet, hvalid, hnlt, hlen]
    · have h1 : db.multi_sig_wallets.filter
          (fun w => decide (w.id ≠ db.next_id)) = db.multi_sig_wallets :=
        filter_eq_self_of_all _ _
          (fun w hw => decide_eq_true (hfresh w hw))
      simp [createMultiSigWallet, hvalid, hnlt, hlen, List.filter_append, h1]
      exact hfresh
    · simp [createMultiSigWallet, hvalid, hnlt, hlen]
  · intro hle hlen hsf
    subst hsf
    have hnlt : ¬ ts < rs := not_lt.mpr hle
    refine ⟨⟨db.next_id, userId, wn, rs, ts, wa, sh2, true⟩,
      signers.map (fun s2 =>
        ⟨db.next_id, s2.signer_address, s2.signer_name, s2.public_key,
          false⟩), ?_, ?_, ?_, ?_, ?_, ?_⟩
    · simp [createMultiSigWallet, hvalid, hnlt, hlen]
    · simp [createMultiSigWallet, hvalid, hnlt, hlen]
    · simp [createMultiSigWallet, hvalid, hnlt, hlen]
    · simp [hlen]
    · simp [List.all_map]
    · simp [hsne]

/-- State for the C10 witness: empty tables with the id counter at 5. -/
def dbC10 : Db :=
  { transactions := [], security_policies := [], gasless_transactions := [],
    tokens := [], multi_sig_wallets := [], wallet_signers := [],
    payment_transactions := [], user_subscriptions := [], next_id := 5 }

/-- Signers of the C10 witness request. -/
def signersC10 : List SignerRequest :=
  [{ signer_address := "s1", signer_name := none, public_key := "k1" },
   { signer_address := "s2", signer_name := none, public_key := "k2" }]

/-- C10 witness: requesting 3 required signatures over 2 total signers is
rejected with the configuration error and no row is written. -/
theorem createMultiSigWallet_validates_and_rolls_back_witness :
    createMultiSigWallet dbC10 1 "vault" 3 2 "addr" "hash" signersC10
      false false = (.invalidConfiguration, dbC10) := by
  have h := createMultiSigWallet_validates_and_rolls_back dbC10 1 "vault" 3 2
    "addr" "hash" signersC10 false (by decide) (by decide)
  exact h.1 (Or.inl (by decide))


end Kepka
